import Mathlib

/-!
Shallow embedding of the embeDGG extension core (content script and background
service worker): the link classifier and embed router, the duplicate-insertion
marker, the resolver fallback behaviour, the tweet media caps, the media pager,
the spoiler reveal, the scroll-suppression flag bracketing, and the thumbnail
auto-refresh timers. Every definition is translated from the JavaScript source;
the theorems check the specification claims C1 - C10 against these definitions.
-/

/-- Text (second argument) begins with the pattern (first argument), on
character lists. Mirrors how an anchored JS regex or startsWith behaves. -/
def charsStartWith : List Char → List Char → Bool
  | [], _ => true
  | _ :: _, [] => false
  | a :: as, b :: bs => a == b && charsStartWith as bs

/-- The text contains the pattern as a contiguous substring, on character
lists. Mirrors an unanchored JS regex literal match or String.includes. -/
def charsContains (pat : List Char) : List Char → Bool
  | [] => pat.isEmpty
  | t@(_ :: rest) => charsStartWith pat t || charsContains pat rest

/-- String form of charsContains: strContains hay pat is true when pat occurs
as a substring of hay (JS hay.includes(pat) or /pat/.test(hay)). -/
def strContains (hay pat : String) : Bool := charsContains pat.data hay.data

/-- JS s.startsWith(pat), on the underlying characters. -/
def strStartsWith (s pat : String) : Bool := charsStartWith pat.data s.data

/-- JS s.endsWith(pat), on the underlying characters. -/
def strEndsWith (s pat : String) : Bool :=
  charsStartWith pat.data.reverse s.data.reverse

/-- JS s.slice(n) for a non-negative n, on the underlying characters. -/
def strDrop (s : String) (n : Nat) : String := String.mk (s.data.drop n)

/-- JS s.toLowerCase(), on the underlying characters (ASCII suffices for
every use in this program). -/
def strLower (s : String) : String := String.mk (s.data.map Char.toLower)

/-- JS s.trim(): whitespace stripped from both ends. -/
def strTrim (s : String) : String :=
  String.mk (((s.data.dropWhile Char.isWhitespace).reverse.dropWhile Char.isWhitespace).reverse)

/-- Helper for splitChar: accumulates the current field (reversed) while
walking the characters. -/
def splitCharAux (sep : Char) (cur : List Char) : List Char → List (List Char)
  | [] => [cur.reverse]
  | c :: rest =>
    if c == sep then cur.reverse :: splitCharAux sep [] rest
    else splitCharAux sep (c :: cur) rest

/-- JS s.split(sep) for a one-character separator, as used on pathnames. -/
def splitChar (s : String) (sep : Char) : List String :=
  (splitCharAux sep [] s.data).map String.mk

/-- JS regex word character class [A-Za-z0-9_], used by the word-boundary
assertion. -/
def isWordChar (c : Char) : Bool := c.isAlpha || c.isDigit || c == '_'

/-- Helper for hasWord: walks the text remembering the previous character so
both word boundaries around the pattern can be checked. -/
def hasWordAux (pat : List Char) : Option Char → List Char → Bool
  | _, [] => false
  | prev, t@(c :: rest) =>
    (charsStartWith pat t
      && (match prev with | some p => !isWordChar p | none => true)
      && (match t.drop pat.length with | d :: _ => !isWordChar d | [] => true))
    || hasWordAux pat (some c) rest

/-- JS regex boundary-bracketed word test on a string, as in the NSFW and NSFL
markers of getSensitivityLabel. The pattern itself consists of word
characters. -/
def hasWord (hay pat : String) : Bool := hasWordAux pat.data none hay.data

/-- Model of a parsed browser URL as consumed by the content script: hostname,
pathname, search parameters and fragment. -/
structure Url where
  hostname : String
  pathname : String
  searchParams : List (String × String)
  hash : String
deriving Repr, DecidableEq

/-- JS url.searchParams.get: first value for the key, null when absent. -/
def Url.getParam (u : Url) (k : String) : Option String :=
  ((u.searchParams.find? (fun p => p.1 == k)).map (fun p => p.2))

/-- JS hostname.replace of a leading literal www. (case sensitive, as the JS
regex is). -/
def stripWww (h : String) : String := if strStartsWith h "www." then strDrop h 4 else h

/-- JS host test of shape (^|\.)base$ with the i flag: the lowercased host is
base itself or ends in .base. -/
def hostMatchesSuffix (host base : String) : Bool :=
  let h := strLower host
  h == base || strEndsWith h ("." ++ base)

/-- The content-script MEDIA_WHITELIST set, verbatim from content.js (the
duplicate cdn.syndication.twimg.com entry of the source is harmless in a
list-membership model). -/
def mediaWhitelist : List String :=
  ["cdn.syndication.twimg.com", "destiny.gg/embed/chat*", "twitter.com",
   "mobile.twitter.com", "pic.twitter.com", "x.com", "t.co", "nitter.net",
   "fxtwitter.com", "vxtwitter.com", "imgur.com", "i.imgur.com", "flickr.com",
   "youtube.com", "youtu.be", "vimeo.com", "giphy.com", "media.giphy.com",
   "tenor.com", "media.tenor.com", "streamable.com", "dropbox.com",
   "*.dropboxusercontent.com", "onedrive.live.com", "photos.google.com",
   "lh3.googleusercontent.com", "icloud.com", "res.cloudinary.com",
   "s3.amazonaws.com", "cdn.discordapp.com", "i.4cdn.org", "kick.com",
   "twitch.tv", "www.twitch.tv", "files.catbox.moe", "destiny.gg/bigscreen*",
   "packaged-media.redd.it", "reddit.com", "i.redd.it", "preview.redd.it",
   "v.redd.it", "cdn.syndication.twimg.com", "publish.twitter.com",
   "pbs.twimg.com", "video.twimg.com", "i.kym-cdn.com"]

/-- MEDIA_EXT regex of content.js: the pathname ends (case insensitively) in
one of the direct-media file extensions. -/
def mediaExtTest (pathname : String) : Bool :=
  let p := strLower pathname
  ["png", "jpg", "jpeg", "gif", "webp", "mp4", "webm", "mov"].any
    (fun e => strEndsWith p ("." ++ e))

/-- isTwitterImageUrl of content.js: host pbs.twimg.com (lowercased, www
stripped) with a format query parameter naming an image type. -/
def isTwitterImageUrl (u : Url) : Bool :=
  let h := stripWww (strLower u.hostname)
  let fmt := strLower ((u.getParam "format").getD "")
  h == "pbs.twimg.com" &&
    (fmt == "jpg" || fmt == "jpeg" || fmt == "png" || fmt == "webp" || fmt == "gif")

/-- isTwitterVideoUrl of content.js: host video.twimg.com and a pathname that
ends in .mp4 or contains a /vid/ or /mp4/ segment (the lowercased pathname
never contains a question mark, so the regex alternative for it stays). -/
def isTwitterVideoUrl (u : Url) : Bool :=
  let h := stripWww (strLower u.hostname)
  let p := strLower u.pathname
  h == "video.twimg.com" &&
    (strEndsWith p ".mp4" || strContains p ".mp4?" || strContains p "/vid/" || strContains p "/mp4/")

/-- isTweetUrlHost of content.js: the known Twitter and X front-end hosts. -/
def isTweetUrlHost (hostname : String) : Bool :=
  let h := stripWww (strLower hostname)
  h == "twitter.com" || h == "x.com" || h == "mobile.twitter.com" ||
  h == "fxtwitter.com" || h == "vxtwitter.com" || h == "nitter.net"

/-- The two status-path regexes of tryEmbed. The second pattern is subsumed by
the first, and an unanchored match of /status/ followed by one or more digits
is exactly the presence of /status/ directly followed by some digit. -/
def hasTweetStatusPath (pathname : String) : Bool :=
  ["0", "1", "2", "3", "4", "5", "6", "7", "8", "9"].any
    (fun d => strContains pathname ("/status/" ++ d))

/-- pathname.split(slash).filter(Boolean) as used by the Twitch and Kick
extractors. -/
def splitPathSegments (p : String) : List String :=
  (splitChar p '/').filter (fun s => s != "")

/-- extractTwitch of content.js: videos/id pairs give a VOD id, otherwise the
first segment is the channel. -/
def extractTwitch (u : Url) : Option String × Option String :=
  match splitPathSegments u.pathname with
  | "videos" :: v :: _ => (none, some v)
  | c :: _ => (some c, none)
  | [] => (none, none)

/-- extractKick of content.js: video/id or videos/id pairs give a video id,
otherwise the first segment is the channel. -/
def extractKick (u : Url) : Option String × Option String :=
  match splitPathSegments u.pathname with
  | "video" :: v :: _ => (none, some v)
  | "videos" :: v :: _ => (none, some v)
  | c :: _ => (some c, none)
  | [] => (none, none)

/-- The shorts path capture of extractYouTubeId: first /shorts/ occurrence
followed by at least one non-slash character; like the JS regex engine it
retries later occurrences when the first is directly followed by a slash. -/
def shortsIdAux : List Char → String
  | [] => ""
  | t@(_ :: rest) =>
    if charsStartWith "/shorts/".data t then
      let id := (t.drop 8).takeWhile (fun c => c != '/')
      if id.isEmpty then shortsIdAux rest else String.mk id
    else shortsIdAux rest

/-- extractYouTubeId of content.js; the empty string models the falsy results
(null, or the empty capture for a bare youtu.be link) that the caller rejects
with a truthiness check. -/
def extractYouTubeId (u : Url) : String :=
  if u.hostname == "youtu.be" then strDrop u.pathname 1
  else if strContains u.hostname "youtube.com" then
    let v := (u.getParam "v").getD ""
    if v != "" then v else shortsIdAux u.pathname.data
  else ""

/-- Character class [a-z0-9_] with the i flag, used by the bigscreen channel
captures. -/
def isTwitchChanChar (c : Char) : Bool := c.isAlpha || c.isDigit || c == '_'

/-- extractDggBigscreenTwitch of content.js: a destiny.gg /bigscreen URL with
a #twitch/channel hash, or an anchor text of exactly #twitch/channel. -/
def extractDggBigscreenTwitch (u : Url) (linkText : String) : Option String :=
  let fromHash : Option String :=
    if hostMatchesSuffix u.hostname "destiny.gg" && strStartsWith u.pathname "/bigscreen" &&
       u.hash != "" && strStartsWith u.hash "#twitch/" then
      let chan := String.mk (((strDrop u.hash 8).data).takeWhile isTwitchChanChar)
      if chan != "" then some chan else none
    else none
  match fromHash with
  | some c => some c
  | none =>
    let t := strTrim linkText
    if t != "" && strStartsWith t "#twitch/" then
      let restStr := strDrop t 8
      if restStr != "" && restStr.data.all isTwitchChanChar then some restStr else none
    else none

/-- Sensitivity labels derived from the message text. -/
inductive Sensitivity where
  | NSFW
  | NSFL
deriving Repr, DecidableEq

/-- getSensitivityLabel of content.js: word-bounded nsfl, then nsfw, in the
lowercased container text. -/
def getSensitivityLabel (containerText : String) : Option Sensitivity :=
  let t := strLower containerText
  if hasWord t "nsfl" then some Sensitivity.NSFL
  else if hasWord t "nsfw" then some Sensitivity.NSFW
  else none

/-- The STATE.settings record of content.js with its default values. -/
structure Settings where
  enableTweets : Bool := true
  enableMedia : Bool := true
  enableYouTube : Bool := true
  enableTwitch : Bool := true
  enableKick : Bool := true
  enableInstagram : Bool := true
  blurMedia : Bool := false
deriving Repr, DecidableEq

/-- The defaults of the settings record. -/
def defaultSettings : Settings := {}

/-- The page-level inputs read by tryEmbed: the document body text and the DGG
chat controls for hiding sensitive content. -/
structure PageContext where
  bodyText : String
  hideNsfl : Bool
  hideNsfw : Bool
  showRemoved : String
deriving Repr, DecidableEq

/-- An anchor as seen by tryEmbed: its parsed URL, its text content and the
one-shot t.co resolution marker stored on the element. -/
structure Anchor where
  url : Url
  text : String
  tcoResolved : Bool
deriving Repr, DecidableEq

/-- The observable effect of one tryEmbed call on an anchor: which embed is
built and inserted (the card constructors), or which asynchronous resolver is
started (the Resolve constructors, which insert only on a later success). -/
inductive EmbedAction where
  | tcoResolve
  | bigscreenTwitchCard (channel : String)
  | tweetCard
  | directImage
  | directVideo
  | redditMediaImage
  | redditMediaVideo
  | imgurResolve
  | instagramResolve
  | redditPostResolve
  | youtubeCard (id : String)
  | twitchCard (channel video : Option String)
  | kickCard (channel video : Option String)
deriving Repr, DecidableEq

/-- The tail of tryEmbed after the tweet branch: direct media, the reddit
/media redirector, the Imgur, Instagram and Reddit-post resolvers, and the
whitelisted YouTube, Twitch and Kick cards, with the same fall-through
structure as the source. The parseUrl argument stands for the browser URL
parser used on the reddit redirector target (none models a parse throw). -/
def tryEmbedRest (settings : Settings) (url : Url) (host : String)
    (looksLikeMediaPath isWhitelisted : Bool) (parseUrl : String → Option Url) :
    List EmbedAction :=
  let fileExt := strLower (((splitChar url.pathname '.').getLast?).getD "")
  let isTwImg := isTwitterImageUrl url
  let isTwVid := isTwitterVideoUrl url
  let directMedia : Option EmbedAction :=
    if settings.enableMedia && isWhitelisted && looksLikeMediaPath then
      if isTwImg || ["png", "jpg", "jpeg", "gif", "webp"].contains fileExt then
        some EmbedAction.directImage
      else if isTwVid || ["mp4", "webm", "mov"].contains fileExt then
        some EmbedAction.directVideo
      else none
    else none
  match directMedia with
  | some act => [act]
  | none =>
    let redditMedia : Option EmbedAction :=
      if settings.enableMedia && hostMatchesSuffix host "reddit.com" && url.pathname == "/media" then
        match (url.getParam "url").getD "" with
        | "" => none
        | target =>
          match parseUrl target with
          | none => none
          | some mu =>
            let mhost := stripWww mu.hostname
            let mExt := strLower (((splitChar mu.pathname '.').getLast?).getD "")
            let okHost := mediaWhitelist.contains mhost || hostMatchesSuffix mhost "redd.it"
            if okHost && ["png", "jpg", "jpeg", "gif", "webp"].contains mExt then
              some EmbedAction.redditMediaImage
            else if okHost && ["mp4", "webm", "mov"].contains mExt then
              some EmbedAction.redditMediaVideo
            else none
      else none
    match redditMedia with
    | some act => [act]
    | none =>
      if settings.enableMedia && hostMatchesSuffix host "imgur.com" && !looksLikeMediaPath then
        [EmbedAction.imgurResolve]
      else if settings.enableInstagram && hostMatchesSuffix host "instagram.com" then
        [EmbedAction.instagramResolve]
      else if settings.enableMedia && hostMatchesSuffix host "reddit.com" &&
              strContains url.pathname "/comments/" then
        [EmbedAction.redditPostResolve]
      else if isWhitelisted then
        if settings.enableYouTube && (strContains host "youtube.com" || strContains host "youtu.be") &&
           extractYouTubeId url != "" then
          [EmbedAction.youtubeCard (extractYouTubeId url)]
        else if settings.enableTwitch && strContains host "twitch.tv" &&
                ((extractTwitch url).1.isSome || (extractTwitch url).2.isSome) then
          [EmbedAction.twitchCard (extractTwitch url).1 (extractTwitch url).2]
        else if settings.enableKick && hostMatchesSuffix host "kick.com" &&
                ((extractKick url).1.isSome || (extractKick url).2.isSome) then
          [EmbedAction.kickCard (extractKick url).1 (extractKick url).2]
        else []
      else []

/-- tryEmbed of content.js as a pure classifier: given the settings, the page
context, the container text and the anchor, the list of embed actions it
performs, in source order. The early skips ((source) links, hidden
sensitivities, the logged-out heuristic) yield no action; the tweet branch
does not return in the source, so its card is prepended to whatever the later
branches do. -/
def tryEmbed (settings : Settings) (page : PageContext) (containerText : String)
    (a : Anchor) (parseUrl : String → Option Url) : List EmbedAction :=
  let url := a.url
  let host := url.hostname
  let sensitivity := getSensitivityLabel containerText
  let linkText := strTrim a.text
  if linkText == "(source)" then []
  else if sensitivity == some Sensitivity.NSFL && page.hideNsfl then []
  else if sensitivity == some Sensitivity.NSFW && page.hideNsfw && page.showRemoved == "0" then []
  else
    let pageText := strLower page.bodyText
    if strContains pageText "log in" && !strContains pageText "logout" then []
    else
      let isTweet := isTweetUrlHost host && hasTweetStatusPath url.pathname
      let isPicShort := strLower (stripWww host) == "pic.twitter.com"
      let looksLikeMediaPath := mediaExtTest url.pathname || isTwitterImageUrl url || isTwitterVideoUrl url
      let isWhitelisted := mediaWhitelist.contains host || isTwitterImageUrl url || isTwitterVideoUrl url
      if strLower host == "t.co" && !a.tcoResolved then [EmbedAction.tcoResolve]
      else
        match (if settings.enableTwitch then extractDggBigscreenTwitch url linkText else none) with
        | some chan => [EmbedAction.bigscreenTwitchCard chan]
        | none =>
          let tweetPart : List EmbedAction :=
            if settings.enableTweets && isWhitelisted && (isTweet || isPicShort) then
              [EmbedAction.tweetCard]
            else []
          tweetPart ++ tryEmbedRest settings url host looksLikeMediaPath isWhitelisted parseUrl

/-- A page context with no skip conditions active. -/
def plainPage : PageContext :=
  { bodyText := "logout", hideNsfl := false, hideNsfw := false, showRemoved := "1" }

/-- A real-shaped DGG bigscreen anchor: its host www.destiny.gg is not a
member of the MEDIA_WHITELIST set (the set only holds the glob-like strings
destiny.gg/embed/chat* and destiny.gg/bigscreen*, which never equal a
hostname), yet its #twitch hash is matched by the bigscreen branch. -/
def bigscreenAnchor : Anchor :=
  { url := { hostname := "www.destiny.gg", pathname := "/bigscreen",
             searchParams := [], hash := "#twitch/xqc" },
    text := "destiny.gg/bigscreen#twitch/xqc", tcoResolved := false }

/-- C1, counterexample: an anchor whose host www.destiny.gg is absent from the
media allow-list still makes tryEmbed build and synchronously insert a
Twitch bigscreen card, so classification does not fall through to
Unsupported for every off-list host. -/
theorem tryEmbed_offlist_bigscreen_inserts_card :
    mediaWhitelist.contains "www.destiny.gg" = false ∧
    tryEmbed defaultSettings plainPage "" bigscreenAnchor (fun _ => none) =
      [EmbedAction.bigscreenTwitchCard "xqc"] := by
  constructor
  · rfl
  · decide

/-- C1, amended: for an anchor whose (browser-normalized, hence lowercase)
host is not a member of MEDIA_WHITELIST, is not a pbs or video twimg URL
shape, does not match the DGG bigscreen #twitch link shape, and does not fall
under the Imgur, Instagram or Reddit host regexes, tryEmbed performs no
action at all: no card is inserted and no resolver is started, regardless of
the path shape, the settings and the page state. -/
theorem tryEmbed_offWhitelist_noCard
    (s : Settings) (page : PageContext) (ct : String) (a : Anchor)
    (pu : String → Option Url)
    (hnorm : strLower a.url.hostname = a.url.hostname)
    (hwl : mediaWhitelist.contains a.url.hostname = false)
    (himg : isTwitterImageUrl a.url = false)
    (hvid : isTwitterVideoUrl a.url = false)
    (hbs : extractDggBigscreenTwitch a.url (strTrim a.text) = none)
    (himgur : hostMatchesSuffix a.url.hostname "imgur.com" = false)
    (hinsta : hostMatchesSuffix a.url.hostname "instagram.com" = false)
    (hreddit : hostMatchesSuffix a.url.hostname "reddit.com" = false) :
    tryEmbed s page ct a pu = [] := by
  have ht : (strLower a.url.hostname == "t.co") = false := by
    cases h : strLower a.url.hostname == "t.co" with
    | false => rfl
    | true =>
      rw [hnorm] at h
      have he : a.url.hostname = "t.co" := beq_iff_eq.mp h
      rw [he] at hwl
      exact absurd hwl (by decide)
  have hwl2 : a.url.hostname ∉ mediaWhitelist := by simpa using hwl
  simp [tryEmbed, tryEmbedRest, hwl, hwl2, himg, hvid, ht, hbs, himgur, hinsta, hreddit]

/-- An anchor for a direct-media-shaped path on a host outside the allow-list:
the extension-ending path alone does not produce an embed. -/
def offListMediaAnchor : Anchor :=
  { url := { hostname := "example.com", pathname := "/cat.png",
             searchParams := [], hash := "" },
    text := "https://example.com/cat.png", tcoResolved := false }

/-- C1, witness: the amended theorem applied to the concrete off-list anchor
with an image-extension path. -/
theorem tryEmbed_offWhitelist_noCard_witness :
    tryEmbed defaultSettings plainPage "" offListMediaAnchor (fun _ => none) = [] :=
  tryEmbed_offWhitelist_noCard defaultSettings plainPage "" offListMediaAnchor
    (fun _ => none) (by decide) (by decide) (by decide) (by decide) (by decide)
    (by decide) (by decide) (by decide)

/-- The scroll-intent fields of the content-script STATE singleton:
stickyWanted is the pinned intent, insertingEmbed the suppression flag read
by the scroll handler. -/
structure ScrollState where
  stickyWanted : Bool
  insertingEmbed : Bool
deriving Repr, DecidableEq

/-- safeAppendEmbed of content.js as a state transformer. The DOM append
itself never writes STATE; the appendThrows flag models an exception from
appendChild, which the try/finally construction lets propagate (the returned
Bool) only after the finally block has cleared the flag and restored a
previously-true stickyWanted. -/
def safeAppendEmbed (st : ScrollState) (appendThrows : Bool) : ScrollState × Bool :=
  let wasStickyWanted := st.stickyWanted
  let during : ScrollState := { st with insertingEmbed := true }
  let cleared : ScrollState := { during with insertingEmbed := false }
  let final : ScrollState :=
    if wasStickyWanted then { cleared with stickyWanted := true } else cleared
  (final, appendThrows)

/-- The pager group state: the number of media items of one edgg-tweet-media
container and the current index. -/
structure PagerGroup where
  n : Nat
  idx : Nat
deriving Repr, DecidableEq

/-- The index clamp of the show closure of initTweetMediaPager:
Math.max(0, Math.min(i, n - 1)). -/
def clampIndex (i : Int) (n : Nat) : Nat :=
  (max 0 (min i ((n : Int) - 1))).toNat

/-- The show closure of initTweetMediaPager: a no-op on an empty item list,
otherwise the clamped index becomes current (and exactly that item is
displayed). -/
def showItem (g : PagerGroup) (i : Int) : PagerGroup :=
  if g.n == 0 then g else { g with idx := clampIndex i g.n }

/-- Pager item visibility after show: item k is displayed exactly when it is
the current index, so this counts the displayed items of the group. -/
def visibleCount (g : PagerGroup) : Nat :=
  ((List.range g.n).filter (fun k => k == g.idx)).length

/-- The combined state touched by safePageTo: the STATE scroll fields, the
pager group, and the scroll offset of the nearest scroll container. -/
structure PagerScrollState where
  scroll : ScrollState
  group : PagerGroup
  scrollTop : Int
deriving Repr, DecidableEq

/-- The values safePageTo saves on entry: wasInserting, wasStickyWanted and
savedScrollTop. -/
structure SafePageSaved where
  wasInserting : Bool
  wasStickyWanted : Bool
  savedScrollTop : Int
deriving Repr, DecidableEq

/-- The synchronous extent of safePageTo of content.js: save the entry
values, set insertingEmbed, run the page change, and re-assert the saved
scroll offset. The function returns with insertingEmbed still set; the
restoration only happens in the queued animation-frame callbacks. -/
def safePageToSync (st : PagerScrollState) (newIdx : Int) :
    PagerScrollState × SafePageSaved :=
  let saved : SafePageSaved :=
    { wasInserting := st.scroll.insertingEmbed,
      wasStickyWanted := st.scroll.stickyWanted,
      savedScrollTop := st.scrollTop }
  let st1 := { st with scroll := { st.scroll with insertingEmbed := true } }
  let st2 := { st1 with group := showItem st1.group newIdx }
  ({ st2 with scrollTop := saved.savedScrollTop }, saved)

/-- The two nested requestAnimationFrame callbacks of safePageTo: re-assert
the saved scroll offset twice, then restore stickyWanted and insertingEmbed
to their entry values. -/
def safePageToRafs : PagerScrollState × SafePageSaved → PagerScrollState
  | (st, saved) =>
    let st1 := { st with scrollTop := saved.savedScrollTop }
    let st2 := { st1 with scrollTop := saved.savedScrollTop }
    { st2 with scroll := { stickyWanted := saved.wasStickyWanted,
                           insertingEmbed := saved.wasInserting } }

/-- safePageTo of content.js, run to completion: the synchronous extent
followed by the two animation-frame callbacks. -/
def safePageTo (st : PagerScrollState) (newIdx : Int) : PagerScrollState :=
  safePageToRafs (safePageToSync st newIdx)

/-- A pager scroll state with the suppression flag clear and a three-item
group. -/
def pagerStateEx : PagerScrollState :=
  { scroll := { stickyWanted := false, insertingEmbed := false },
    group := { n := 3, idx := 1 }, scrollTop := 100 }

/-- C2, counterexample: safePageTo is an insertion-suppression bracket whose
synchronous extent ends with insertingEmbed still true (entered with the
flag false, the synchronous part returns with it set; it is only cleared in
a deferred animation-frame callback), refuting that the flag is true only
within the synchronous extent of the operation and restored when the
operation ends. -/
theorem safePageTo_flag_set_after_sync_extent :
    pagerStateEx.scroll.insertingEmbed = false ∧
    (safePageToSync pagerStateEx 2).1.scroll.insertingEmbed = true := by
  decide

/-- C2, amended: safeAppendEmbed clears insertingEmbed on every exit,
including the exception path, so the flag is true only inside its synchronous
extent; safePageTo, however, restores the entry values of insertingEmbed and
stickyWanted only after its second queued animation-frame callback has run,
not at the end of its synchronous extent. -/
theorem insertion_flag_bracketing (st : ScrollState) (t : Bool)
    (ps : PagerScrollState) (i : Int) :
    (safeAppendEmbed st t).1.insertingEmbed = false ∧
    (safeAppendEmbed st t).2 = t ∧
    (safePageToSync ps i).1.scroll.insertingEmbed = true ∧
    (safePageTo ps i).scroll.insertingEmbed = ps.scroll.insertingEmbed ∧
    (safePageTo ps i).scroll.stickyWanted = ps.scroll.stickyWanted := by
  refine ⟨?_, rfl, rfl, rfl, rfl⟩
  simp only [safeAppendEmbed]
  split <;> rfl

/-- A media element built by the embed router, by tag: only images and
iframes receive the data-edgg-src duplicate marker in injectBelow. -/
inductive EmbedElement where
  | img (src : String)
  | video (src : String)
  | iframe (src : String)
deriving Repr, DecidableEq

/-- One wrapper inserted below a message: its data-edgg-origin tag, the media
element and the data-edgg-src attribute (when one was set). -/
structure InsertedWrap where
  originUrl : String
  el : EmbedElement
  dataSrc : Option String
deriving Repr, DecidableEq

/-- A message container with the embed wrappers inserted below it so far. -/
structure Container where
  wraps : List InsertedWrap
deriving Repr, DecidableEq

/-- The duplicate query of injectBelow: some element under the container
already carries this data-edgg-src value. -/
def containerHasSrc (c : Container) (s : String) : Bool :=
  c.wraps.any (fun w => w.dataSrc == some s)

/-- The marker path of injectBelow: skip when the source is already present,
otherwise record the marker and append the wrapper. -/
def injectBelowMark (c : Container) (el : EmbedElement) (originUrl s : String) :
    Container :=
  if containerHasSrc c s then c
  else { wraps := c.wraps ++ [{ originUrl := originUrl, el := el, dataSrc := some s }] }

/-- injectBelow of content.js, restricted to its duplicate-handling effect:
the data-edgg-src duplicate check runs only for IMG and IFRAME elements
(keyed by their src); every other element is appended unconditionally, with
the data-edgg-origin tag set but never consulted. -/
def injectBelow (c : Container) (el : EmbedElement) (originUrl : String) : Container :=
  match el with
  | EmbedElement.img s => injectBelowMark c el originUrl s
  | EmbedElement.iframe s => injectBelowMark c el originUrl s
  | EmbedElement.video _ =>
    { wraps := c.wraps ++ [{ originUrl := originUrl, el := el, dataSrc := none }] }

/-- A direct-video URL on a whitelisted host. -/
def catboxVideoUrl : String := "https://files.catbox.moe/demo.mp4"

/-- An anchor for the direct-video URL. -/
def catboxAnchor : Anchor :=
  { url := { hostname := "files.catbox.moe", pathname := "/demo.mp4",
             searchParams := [], hash := "" },
    text := catboxVideoUrl, tcoResolved := false }

/-- C3, counterexample: scanning the same message twice for a direct .mp4
link classifies to a video embed each time, and injectBelow appends a second
wrapper with the same origin URL because video elements never receive the
data-edgg-src duplicate marker — re-scanning is not idempotent. -/
theorem injectBelow_video_duplicate_cards :
    tryEmbed defaultSettings plainPage "" catboxAnchor (fun _ => none) =
      [EmbedAction.directVideo] ∧
    ((injectBelow
        (injectBelow { wraps := [] } (EmbedElement.video catboxVideoUrl) catboxVideoUrl)
        (EmbedElement.video catboxVideoUrl) catboxVideoUrl).wraps.map
      (fun w => w.originUrl)) = [catboxVideoUrl, catboxVideoUrl] := by
  constructor
  · decide
  · decide

/-- C3, amended: the per-container already-has-this-source marker suppresses
duplicates only for image and iframe embeds, keyed by the media source URL:
for those, re-running injectBelow with the same source is idempotent, while
video (and card) insertions append a new wrapper on every scan. -/
theorem injectBelow_marker_idempotent (c : Container) (s u : String) :
    injectBelow (injectBelow c (EmbedElement.img s) u) (EmbedElement.img s) u =
      injectBelow c (EmbedElement.img s) u ∧
    injectBelow (injectBelow c (EmbedElement.iframe s) u) (EmbedElement.iframe s) u =
      injectBelow c (EmbedElement.iframe s) u := by
  have happ : ∀ (w : InsertedWrap),
      containerHasSrc { wraps := c.wraps ++ [w] } s =
        (containerHasSrc c s || (w.dataSrc == some s)) := by
    intro w
    simp [containerHasSrc, List.any_append]
  have key : ∀ (el : EmbedElement),
      injectBelowMark (injectBelowMark c el u s) el u s = injectBelowMark c el u s := by
    intro el
    by_cases hcs : containerHasSrc c s = true
    · simp [injectBelowMark, hcs]
    · have hcs2 : containerHasSrc c s = false := by simpa using hcs
      simp [injectBelowMark, hcs2, happ]
  exact ⟨key (EmbedElement.img s), key (EmbedElement.iframe s)⟩

/-- The outcome of one resolver callback for one anchor: a minimal fallback
card holding just the original link, a rendered embed, nothing inserted, or
a propagated exception. -/
inductive CardOutcome where
  | fallbackLink (originUrl : String)
  | rendered
  | nothing
  | exception
deriving Repr, DecidableEq

/-- The fetchTweet response as the content script checks it: res, res.ok and
res.data truthiness. -/
structure FetchTweetResponse where
  ok : Bool
  hasData : Bool
deriving Repr, DecidableEq

/-- The fetchTweet callback of tryEmbed in content.js: a missing response,
a non-ok response or a response without data replaces the loading card body
with a plain link to the original URL; an exception thrown while rendering
the payload is caught and produces the same fallback; otherwise the tweet is
rendered. -/
def fetchTweetCallback (originUrl : String) (res : Option FetchTweetResponse)
    (renderThrows : Bool) : CardOutcome :=
  match res with
  | none => CardOutcome.fallbackLink originUrl
  | some r =>
    if !r.ok || !r.hasData then CardOutcome.fallbackLink originUrl
    else if renderThrows then CardOutcome.fallbackLink originUrl
    else CardOutcome.rendered

/-- A bgFetch response as the content script checks it: res, res.ok and
res.body truthiness (the empty string models a missing body). -/
structure BgFetchResponse where
  ok : Bool
  body : String
deriving Repr, DecidableEq

/-- The og-metadata values the Imgur resolver reads from the fetched page
(empty string for an absent tag). -/
structure ImgurOgData where
  videoUrl : String
  imageUrl : String
deriving Repr, DecidableEq

/-- The direct-file check applied to the og video URL of an Imgur page:
regex dot mp4-or-webm followed by end or a query, case insensitive. -/
def imgurVideoUrlUsable (v : String) : Bool :=
  let vl := strLower v
  strEndsWith vl ".mp4" || strEndsWith vl ".webm" ||
    strContains vl ".mp4?" || strContains vl ".webm?"

/-- resolveAndEmbedImgur of content.js as an outcome function: a missing,
non-ok or body-less response returns without inserting anything; a parse
exception is swallowed by the catch, also inserting nothing; otherwise the
og video URL (cleared unless it is a direct mp4 or webm) is preferred, then
the og image URL, and with neither present nothing is inserted. -/
def resolveAndEmbedImgur (res : Option BgFetchResponse) (og : ImgurOgData)
    (parseThrows : Bool) : CardOutcome :=
  match res with
  | none => CardOutcome.nothing
  | some r =>
    if !r.ok || r.body == "" then CardOutcome.nothing
    else if parseThrows then CardOutcome.nothing
    else
      let videoUrl := if og.videoUrl != "" && !imgurVideoUrlUsable og.videoUrl then "" else og.videoUrl
      if videoUrl != "" then CardOutcome.rendered
      else if og.imageUrl != "" then CardOutcome.rendered
      else CardOutcome.nothing

/-- Failure of a fetchTweet response in the sense of the callback guard. -/
def tweetFetchFailed : Option FetchTweetResponse → Bool
  | none => true
  | some r => !r.ok || !r.hasData

/-- Failure of a bgFetch response in the sense of the resolver guards. -/
def bgFetchFailed : Option BgFetchResponse → Bool
  | none => true
  | some r => !r.ok || r.body == ""

/-- C4, counterexample: a transport failure in the Imgur resolver inserts
nothing at all — not a minimal fallback card containing the original link,
as the claim requires of every resolver. -/
theorem resolveAndEmbedImgur_failure_no_fallback :
    resolveAndEmbedImgur none { videoUrl := "", imageUrl := "" } false =
      CardOutcome.nothing ∧
    resolveAndEmbedImgur none { videoUrl := "", imageUrl := "" } false ≠
      CardOutcome.fallbackLink "https://imgur.com/gallery/abc" := by
  constructor
  · rfl
  · decide

/-- C4, amended: on any resolution failure the tweet resolver degrades to
the minimal fallback card containing just the original link, while the Imgur
page resolver degrades to inserting nothing; in both resolvers exceptions
are swallowed rather than propagated, so no failure surfaces as an error. -/
theorem resolver_failure_degrades (originUrl : String)
    (tres : Option FetchTweetResponse) (ires : Option BgFetchResponse)
    (og : ImgurOgData) (renderThrows parseThrows : Bool)
    (ht : tweetFetchFailed tres = true) (hi : bgFetchFailed ires = true) :
    fetchTweetCallback originUrl tres renderThrows = CardOutcome.fallbackLink originUrl ∧
    resolveAndEmbedImgur ires og parseThrows = CardOutcome.nothing ∧
    fetchTweetCallback originUrl tres renderThrows ≠ CardOutcome.exception ∧
    resolveAndEmbedImgur ires og parseThrows ≠ CardOutcome.exception := by
  have h1 : fetchTweetCallback originUrl tres renderThrows =
      CardOutcome.fallbackLink originUrl := by
    cases tres with
    | none => rfl
    | some r =>
      simp only [tweetFetchFailed] at ht
      simp [fetchTweetCallback, ht]
  have h2 : resolveAndEmbedImgur ires og parseThrows = CardOutcome.nothing := by
    cases ires with
    | none => rfl
    | some r =>
      simp only [bgFetchFailed] at hi
      simp [resolveAndEmbedImgur, hi]
  refine ⟨h1, h2, ?_, ?_⟩
  · rw [h1]; simp
  · rw [h2]; simp

/-- C4, witness: the amended theorem at a concrete failed tweet fetch and a
concrete non-ok Imgur fetch. -/
theorem resolver_failure_degrades_witness :
    fetchTweetCallback "https://x.com/u/status/1" none true =
      CardOutcome.fallbackLink "https://x.com/u/status/1" ∧
    resolveAndEmbedImgur (some { ok := false, body := "x" })
      { videoUrl := "", imageUrl := "" } true = CardOutcome.nothing ∧
    fetchTweetCallback "https://x.com/u/status/1" none true ≠ CardOutcome.exception ∧
    resolveAndEmbedImgur (some { ok := false, body := "x" })
      { videoUrl := "", imageUrl := "" } true ≠ CardOutcome.exception :=
  resolver_failure_degrades "https://x.com/u/status/1" none
    (some { ok := false, body := "x" }) { videoUrl := "", imageUrl := "" }
    true true (by decide) (by decide)

/-- A clamped pager index is always inside a nonempty group. -/
theorem clampIndex_lt (i : Int) (n : Nat) (h : n ≠ 0) : clampIndex i n < n := by
  unfold clampIndex
  omega

/-- Exactly one index of range n equals a given index below n. -/
theorem range_filter_eq_length (n idx : Nat) (h : idx < n) :
    ((List.range n).filter (fun k => k == idx)).length = 1 := by
  have hc : ((List.range n).filter (fun k => k == idx)).length = (List.range n).count idx := by
    rw [List.count, List.countP_eq_length_filter]
  rw [hc]
  exact List.count_eq_one_of_mem (List.nodup_range n) (List.mem_range.mpr h)

/-- C5: for a pager group of at least two items, a previous request at index
zero stays at zero and a next request at the last index stays at the last
index (the index clamps, never wraps), and after any safePageTo operation
exactly one item of the group is displayed. -/
theorem pager_clamps_never_wraps (st : PagerScrollState) (i : Int)
    (h2 : 2 ≤ st.group.n) :
    (st.group.idx = 0 → (safePageTo st ((st.group.idx : Int) - 1)).group.idx = 0) ∧
    (st.group.idx = st.group.n - 1 →
      (safePageTo st ((st.group.idx : Int) + 1)).group.idx = st.group.n - 1) ∧
    visibleCount (safePageTo st i).group = 1 := by
  have hn : st.group.n ≠ 0 := by omega
  have hne : (st.group.n == 0) = false := by simpa using hn
  have hgrp : ∀ (j : Int),
      (safePageTo st j).group = { st.group with idx := clampIndex j st.group.n } := by
    intro j
    have hshow : (safePageTo st j).group = showItem st.group j := rfl
    rw [hshow]
    simp [showItem, hne]
  refine ⟨?_, ?_, ?_⟩
  · intro h0
    rw [hgrp]
    dsimp only
    rw [h0]
    unfold clampIndex
    omega
  · intro hL
    rw [hgrp]
    dsimp only
    rw [hL]
    unfold clampIndex
    omega
  · rw [hgrp]
    unfold visibleCount
    exact range_filter_eq_length _ _ (clampIndex_lt i st.group.n hn)

/-- A concrete three-item pager at index zero with a pinned viewer. -/
def pagerWitnessState : PagerScrollState :=
  { scroll := { stickyWanted := true, insertingEmbed := false },
    group := { n := 3, idx := 0 }, scrollTop := 0 }

/-- C5, witness: the pager theorem at the concrete three-item group. -/
theorem pager_clamps_never_wraps_witness :
    (2 ≤ pagerWitnessState.group.n) ∧
    ((pagerWitnessState.group.idx = 0 →
        (safePageTo pagerWitnessState ((pagerWitnessState.group.idx : Int) - 1)).group.idx = 0) ∧
      (pagerWitnessState.group.idx = pagerWitnessState.group.n - 1 →
        (safePageTo pagerWitnessState ((pagerWitnessState.group.idx : Int) + 1)).group.idx =
          pagerWitnessState.group.n - 1) ∧
      visibleCount (safePageTo pagerWitnessState 5).group = 1) :=
  ⟨by decide, pager_clamps_never_wraps pagerWitnessState 5 (by decide)⟩

/-- One spoiler-wrapped media item: its revealed marker class, the blur class
on the media element, the presence of the cover element, and whether the
holder actually contains a media element. -/
structure SpoilerMediaItem where
  revealed : Bool
  blurred : Bool
  hasCover : Bool
  hasMedia : Bool
deriving Repr, DecidableEq

/-- The per-spoiler body of revealAllInTweet: already-revealed holders are
not selected; holders with a media element are unblurred, marked revealed
and have their cover removed. -/
def revealSpoilerItem (it : SpoilerMediaItem) : SpoilerMediaItem :=
  if it.revealed then it
  else if it.hasMedia then { it with revealed := true, blurred := false, hasCover := false }
  else it

/-- A resolved-media group: whether the clicked media sits inside an
edgg-tweet-media container (the closest lookup of revealAllInTweet), and its
spoiler items. -/
structure MediaGroup where
  inTweetMediaContainer : Bool
  items : List SpoilerMediaItem
deriving Repr, DecidableEq

/-- revealAllInTweet of content.js: when the trigger element has no
edgg-tweet-media ancestor the function returns immediately and nothing is
revealed; otherwise every unrevealed spoiler of the container is revealed. -/
def revealAllInTweet (g : MediaGroup) : MediaGroup :=
  if !g.inTweetMediaContainer then g
  else { g with items := g.items.map revealSpoilerItem }

/-- A single-media spoiler group outside any edgg-tweet-media container, as
produced for a direct image embed: applySpoilerIfNeeded covers the
edgg-wrap itself and injectBelow never nests it in a tweet-media container. -/
def standaloneSpoilerGroup : MediaGroup :=
  { inTweetMediaContainer := false,
    items := [{ revealed := false, blurred := true, hasCover := true, hasMedia := true }] }

/-- C6: activating the spoiler cover of a direct media embed calls
revealAllInTweet on the media element, which returns without revealing
anything because the closest edgg-tweet-media lookup finds no container —
the blur and the cover remain, contradicting the intended behaviour that
every spoiler of the group (including the clicked one) is revealed. -/
theorem revealAllInTweet_standalone_noop :
    revealAllInTweet standaloneSpoilerGroup = standaloneSpoilerGroup ∧
    (revealAllInTweet standaloneSpoilerGroup).items.all
      (fun it => it.blurred && it.hasCover && !it.revealed) = true := by
  constructor
  · rfl
  · decide

/-- One mirror-endpoint response of the tweet enrichment, abstracted to what
the scan extracts from its JSON: ok is false for a transport failure, a
non-ok status or a JSON parse exception; text is the first text field found;
photos and videos are the pbs and video twimg URLs found by the walk, in
traversal order. -/
structure FxResp where
  ok : Bool
  text : String
  photos : List String
  videos : List String
deriving Repr, DecidableEq

/-- The accumulated enrichment result of enrichFromFxVx. -/
structure EnrichOut where
  photos : List String
  videos : List String
  text : String
deriving Repr, DecidableEq

/-- Order-preserving first-occurrence deduplication, as performed by the
seen-set filters of enrichFromFxVx. -/
def dedupKeepFirstAux (seen : List String) : List String → List String
  | [] => []
  | x :: xs =>
    if seen.contains x then dedupKeepFirstAux seen xs
    else x :: dedupKeepFirstAux (x :: seen) xs

/-- dedupKeepFirst on a whole list. -/
def dedupKeepFirst (l : List String) : List String := dedupKeepFirstAux [] l

/-- The text capture of the enrichment loop: the first non-empty text wins
(it is taken even from an endpoint that yields no media). -/
def enrichStepText (acc : EnrichOut) (r : FxResp) : EnrichOut :=
  if r.text != "" && acc.text == "" then { acc with text := r.text } else acc

/-- enrichFromFxVx of background.js over the fixed-priority endpoint
responses: failed responses are skipped, the text of the first response
carrying one is captured, and the loop stops at the first response whose
deduplicated media lists are not both empty, appending them to the output. -/
def enrichFromFxVx : List FxResp → EnrichOut → EnrichOut
  | [], acc => acc
  | r :: rest, acc =>
    if !r.ok then enrichFromFxVx rest acc
    else
      let acc1 := enrichStepText acc r
      let ps := dedupKeepFirst r.photos
      let vs := dedupKeepFirst r.videos
      if ps.isEmpty && vs.isEmpty then enrichFromFxVx rest acc1
      else { acc1 with photos := acc1.photos ++ ps, videos := acc1.videos ++ vs }

/-- The fixed priority order of the mirror endpoints tried for a tweet id
(URL-encoding of the id elided). -/
def fxVxTryUrls (tid : String) : List String :=
  ["https://fxtwitter.com/i/status/" ++ tid ++ ".json",
   "https://api.vxtwitter.com/Twitter/status/" ++ tid,
   "https://vxtwitter.com/i/status/" ++ tid ++ ".json"]

/-- The text merge of the fetchTweet handler in background.js: enrichment is
applied only when it produced media, and its text replaces the primary text
only when the primary text is empty or blank. -/
def mergeEnrichment (primaryText : String) (extra : EnrichOut) : String :=
  if !extra.photos.isEmpty || !extra.videos.isEmpty then
    if (primaryText == "" || strTrim primaryText == "") && extra.text != "" then extra.text
    else primaryText
  else primaryText

/-- The enrichment text capture never touches the media lists. -/
theorem enrichStepText_photos (acc : EnrichOut) (r : FxResp) :
    (enrichStepText acc r).photos = acc.photos ∧
    (enrichStepText acc r).videos = acc.videos := by
  unfold enrichStepText
  split <;> exact ⟨rfl, rfl⟩

/-- C7: the mirror endpoints are consulted in their fixed order and the loop
stops at the first ok response yielding at least one media URL — the output
media is exactly the deduplicated media of that response, whatever comes after —
and the enrichment text is merged into the accepted result only when the
primary structured source had no non-blank text. -/
theorem enrichFromFxVx_priority_and_text_merge (r : FxResp) (rest : List FxResp)
    (primaryText : String) (extra : EnrichOut)
    (hok : r.ok = true)
    (hmedia : ((dedupKeepFirst r.photos).isEmpty && (dedupKeepFirst r.videos).isEmpty) = false) :
    (enrichFromFxVx (r :: rest) { photos := [], videos := [], text := "" }).photos =
      dedupKeepFirst r.photos ∧
    (enrichFromFxVx (r :: rest) { photos := [], videos := [], text := "" }).videos =
      dedupKeepFirst r.videos ∧
    (strTrim primaryText ≠ "" → mergeEnrichment primaryText extra = primaryText) ∧
    (strTrim primaryText = "" → extra.text ≠ "" →
      (!extra.photos.isEmpty || !extra.videos.isEmpty) = true →
      mergeEnrichment primaryText extra = extra.text) := by
  have hacc := enrichStepText_photos { photos := [], videos := [], text := "" } r
  refine ⟨?_, ?_, ?_, ?_⟩
  · simp [enrichFromFxVx, hok, hmedia, hacc.1]
  · simp [enrichFromFxVx, hok, hmedia, hacc.2]
  · intro hne
    have hp1 : (primaryText == "") = false := by
      cases hp : primaryText == "" with
      | false => rfl
      | true =>
        rw [beq_iff_eq.mp hp] at hne
        exact absurd rfl hne
    have hp2 : (strTrim primaryText == "") = false := by
      cases hp : strTrim primaryText == "" with
      | false => rfl
      | true => exact absurd (beq_iff_eq.mp hp) hne
    simp [mergeEnrichment, hp1, hp2]
  · intro h0 htext hmedia2
    have h0b : (strTrim primaryText == "") = true := beq_iff_eq.mpr h0
    have htb : (extra.text != "") = true := bne_iff_ne.mpr htext
    simp [mergeEnrichment, hmedia2, h0b, htb]

/-- A first mirror response with duplicate photo URLs and text. -/
def fxRespA : FxResp :=
  { ok := true, text := "mirror text",
    photos := ["https://pbs.twimg.com/media/a.jpg", "https://pbs.twimg.com/media/a.jpg",
               "https://pbs.twimg.com/media/b.jpg"],
    videos := [] }

/-- A later mirror response that must not be consulted. -/
def fxRespB : FxResp :=
  { ok := true, text := "later text",
    photos := ["https://pbs.twimg.com/media/c.jpg"], videos := [] }

/-- C7, witness: the priority theorem at two concrete responses — the output
photos are those of the first response, deduplicated, and the second response is
ignored. -/
theorem enrichFromFxVx_priority_witness :
    (enrichFromFxVx [fxRespA, fxRespB] { photos := [], videos := [], text := "" }).photos =
      ["https://pbs.twimg.com/media/a.jpg", "https://pbs.twimg.com/media/b.jpg"] := by
  have h := enrichFromFxVx_priority_and_text_merge fxRespA [fxRespB] "primary"
    { photos := ["p"], videos := [], text := "alt" } (by rfl) (by decide)
  rw [h.1]
  decide

/-- A media node rendered into a tweet card body. -/
inductive TweetMediaNode where
  | photoNode (src : String)
  | videoNode (src : String)
deriving Repr, DecidableEq

/-- Photo-element discriminator for counting. -/
def TweetMediaNode.isPhoto : TweetMediaNode → Bool
  | photoNode _ => true
  | videoNode _ => false

/-- Video-element discriminator for counting. -/
def TweetMediaNode.isVideo : TweetMediaNode → Bool
  | photoNode _ => false
  | videoNode _ => true

/-- The number of photo elements of a rendered media list. -/
def countPhotoNodes (l : List TweetMediaNode) : Nat :=
  (l.filter TweetMediaNode.isPhoto).length

/-- The number of video elements of a rendered media list. -/
def countVideoNodes (l : List TweetMediaNode) : Nat :=
  (l.filter TweetMediaNode.isVideo).length

/-- A photo entry of the normalized tweet payload, with the alternative URL
fields renderTweetInto probes (empty string for an absent or falsy field). -/
structure TweetPhoto where
  url : String
  media_url_https : String
  media_url : String
  src : String
deriving Repr, DecidableEq

/-- The URL-field precedence of the photo loop of renderTweetInto. -/
def TweetPhoto.pickUrl (p : TweetPhoto) : String :=
  if p.url != "" then p.url
  else if p.media_url_https != "" then p.media_url_https
  else if p.media_url != "" then p.media_url
  else p.src

/-- A video entry of the normalized tweet payload. -/
structure TweetVideo where
  url : String
  src : String
deriving Repr, DecidableEq

/-- The URL-field precedence of the video loop of renderTweetInto. -/
def TweetVideo.pickUrl (v : TweetVideo) : String :=
  if v.url != "" then v.url else v.src

/-- The video URL guard of renderTweetInto: an unanchored video.twimg.com
origin match and a dot-mp4 ending (or dot-mp4 before a query). -/
def isTwimgMp4Url (vu : String) : Bool :=
  (strContains vu "https://video.twimg.com/" || strContains vu "http://video.twimg.com/") &&
  (strEndsWith vu ".mp4" || strContains vu ".mp4?")

/-- One step of the photo loop of renderTweetInto: a node for a non-empty
extracted URL. -/
def tweetPhotoNode? (p : TweetPhoto) : Option TweetMediaNode :=
  if p.pickUrl != "" then some (TweetMediaNode.photoNode p.pickUrl) else none

/-- The photo loop of renderTweetInto: at most min(4, photos.length)
iterations. -/
def tweetPhotoNodes (photos : List TweetPhoto) : List TweetMediaNode :=
  (photos.take 4).filterMap tweetPhotoNode?

/-- One step of the video loop of renderTweetInto: a node only for a
non-empty URL passing the twimg mp4 guard. -/
def tweetVideoNode? (v : TweetVideo) : Option TweetMediaNode :=
  if v.pickUrl != "" && isTwimgMp4Url v.pickUrl then
    some (TweetMediaNode.videoNode v.pickUrl)
  else none

/-- The video loop of renderTweetInto: at most min(2, videos.length)
iterations. -/
def tweetVideoNodes (videos : List TweetVideo) : List TweetMediaNode :=
  (videos.take 2).filterMap tweetVideoNode?

/-- The media list of a tweet card rendered by renderTweetInto (the CDN JSON
path): capped photos followed by capped videos. -/
def renderTweetMediaNodes (photos : List TweetPhoto) (videos : List TweetVideo) :
    List TweetMediaNode :=
  tweetPhotoNodes photos ++ tweetVideoNodes videos

/-- An anchor of the oEmbed blockquote, reduced to the fields the media
extraction of the oEmbed branch of tryEmbed reads: the expanded URL and its
parsed host and path. -/
structure OembedAnchor where
  href : String
  hostname : String
  pathname : String
deriving Repr, DecidableEq

/-- The image-extension test of the oEmbed branch (extension at path end; the
query alternative of the regex is retained). -/
def oembedImageExtTest (path : String) : Bool :=
  ["jpg", "jpeg", "png", "webp", "gif"].any
    (fun e => strEndsWith path ("." ++ e) || strContains path ("." ++ e ++ "?"))

/-- The media nodes one oEmbed anchor contributes: an inline image for a
pbs.twimg.com image path, a video for a video.twimg.com mp4 path. -/
def oembedAnchorNodes (a : OembedAnchor) : List TweetMediaNode :=
  let h := stripWww (strLower a.hostname)
  let path := strLower a.pathname
  (if h == "pbs.twimg.com" && oembedImageExtTest path then
      [TweetMediaNode.photoNode a.href]
    else [])
  ++ (if h == "video.twimg.com" && (strEndsWith path ".mp4" || strContains path ".mp4?") then
      [TweetMediaNode.videoNode a.href]
    else [])

/-- The media list of a tweet card rendered by the oEmbed branch of tryEmbed:
all nodes collected from the blockquote anchors, then the first four appended
to the wrapper — a combined cap with no separate video cap. -/
def oembedMediaNodes (anchors : List OembedAnchor) : List TweetMediaNode :=
  ((anchors.map oembedAnchorNodes).flatten).take 4

/-- An oEmbed anchor holding a direct twimg mp4 link. -/
def videoTwimgAnchor (k : String) : OembedAnchor :=
  { href := "https://video.twimg.com/vid/" ++ k ++ ".mp4",
    hostname := "video.twimg.com", pathname := "/vid/" ++ k ++ ".mp4" }

/-- C8, counterexample: a tweet card rendered through the oEmbed branch from
a blockquote holding three video.twimg.com mp4 links contains three video
elements — the claimed cap of at most two video elements does not hold on
that path. -/
theorem oembed_card_three_videos :
    countVideoNodes (oembedMediaNodes
      [videoTwimgAnchor "a", videoTwimgAnchor "b", videoTwimgAnchor "c"]) = 3 := by
  decide

/-- Nodes produced by the video loop are never photo elements. -/
theorem filterMap_video_no_photos (l : List TweetVideo) :
    (l.filterMap tweetVideoNode?).filter TweetMediaNode.isPhoto = [] := by
  induction l with
  | nil => rfl
  | cons v vs ih =>
    rw [List.filterMap_cons]
    cases hv : tweetVideoNode? v with
    | none => exact ih
    | some n =>
      have hn : n.isPhoto = false := by
        unfold tweetVideoNode? at hv
        split at hv
        · cases hv
          rfl
        · cases hv
      rw [List.filter_cons]
      simp [hn, ih]

/-- Nodes produced by the photo loop are never video elements. -/
theorem filterMap_photo_no_videos (l : List TweetPhoto) :
    (l.filterMap tweetPhotoNode?).filter TweetMediaNode.isVideo = [] := by
  induction l with
  | nil => rfl
  | cons p ps ih =>
    rw [List.filterMap_cons]
    cases hp : tweetPhotoNode? p with
    | none => exact ih
    | some n =>
      have hn : n.isVideo = false := by
        unfold tweetPhotoNode? at hp
        split at hp
        · cases hp
          rfl
        · cases hp
      rw [List.filter_cons]
      simp [hn, ih]

/-- C8, amended: a tweet card rendered by renderTweetInto (the CDN JSON path)
contains at most four photo elements and at most two video elements,
regardless of how much media the sources returned; a card rendered by the
oEmbed branch instead caps the combined media list at four nodes, with no
separate video cap. -/
theorem tweet_media_caps (photos : List TweetPhoto) (videos : List TweetVideo)
    (anchors : List OembedAnchor) :
    countPhotoNodes (renderTweetMediaNodes photos videos) ≤ 4 ∧
    countVideoNodes (renderTweetMediaNodes photos videos) ≤ 2 ∧
    (oembedMediaNodes anchors).length ≤ 4 := by
  refine ⟨?_, ?_, ?_⟩
  · unfold countPhotoNodes renderTweetMediaNodes
    rw [List.filter_append, List.length_append]
    unfold tweetVideoNodes
    rw [filterMap_video_no_photos]
    simp only [List.length_nil, Nat.add_zero]
    calc ((tweetPhotoNodes photos).filter TweetMediaNode.isPhoto).length
        ≤ (tweetPhotoNodes photos).length := List.length_filter_le _ _
      _ ≤ (photos.take 4).length := List.length_filterMap_le _ _
      _ ≤ 4 := List.length_take_le _ _
  · unfold countVideoNodes renderTweetMediaNodes
    rw [List.filter_append, List.length_append]
    unfold tweetPhotoNodes
    rw [filterMap_photo_no_videos]
    simp only [List.length_nil, Nat.zero_add]
    calc ((tweetVideoNodes videos).filter TweetMediaNode.isVideo).length
        ≤ (tweetVideoNodes videos).length := List.length_filter_le _ _
      _ ≤ (videos.take 2).length := List.length_filterMap_le _ _
      _ ≤ 2 := List.length_take_le _ _
  · unfold oembedMediaNodes
    exact List.length_take_le _ _

/-- The JS ToInt32 conversion performed by the bitwise-or-zero in the timer
period computation. -/
def toInt32 (n : Int) : Int := (n + 2 ^ 31) % 2 ^ 32 - 2 ^ 31

/-- The interval period of both auto-refresh starters:
Math.max(15000, periodMs | 0). -/
def thumbRefreshPeriod (periodMs : Int) : Int := max 15000 (toInt32 periodMs)

/-- The environment one timer tick observes: whether the image element is
still connected to the document, whether its wrapper is inside the scroll
viewport, and the current time used for the cache-busting query. -/
structure ThumbTickEnv where
  connected : Bool
  inView : Bool
  now : Nat
deriving Repr, DecidableEq

/-- The state of one auto-refresh timer: whether its interval is still
scheduled, the current thumbnail src, and how many refreshes (network
fetches of a new src) have been performed. -/
structure ThumbTimerState where
  timerActive : Bool
  src : String
  refreshCount : Nat
deriving Repr, DecidableEq

/-- The update closure of startThumbAutoRefresh in content.js: a detached
image clears the interval and stops; an off-screen card is skipped without
touching the schedule; otherwise the src is refreshed with a cache-busting
time parameter. -/
def startThumbAutoRefreshTick (baseUrl : String) (env : ThumbTickEnv)
    (st : ThumbTimerState) : ThumbTimerState :=
  if !env.connected then { st with timerActive := false }
  else if !env.inView then st
  else
    { st with
      src := baseUrl ++ (if strContains baseUrl "?" then "&" else "?") ++ "t=" ++ toString env.now,
      refreshCount := st.refreshCount + 1 }

/-- getTwitchLivePreviewUrl of content.js (URL-encoding of the channel
elided; call sites restrict channels to word characters). -/
def getTwitchLivePreviewUrl (channel : String) (w h : Nat) : String :=
  let c := strLower channel
  if c == "" then ""
  else "https://static-cdn.jtvnw.net/previews-ttv/live_user_" ++ c ++ "-" ++
       toString w ++ "x" ++ toString h ++ ".jpg"

/-- The update closure of startTwitchThumbAutoRefresh in content.js: same
detach and visibility handling, with the src rebuilt from the live preview
URL of the channel on every refresh. -/
def startTwitchThumbAutoRefreshTick (channel : String) (env : ThumbTickEnv)
    (st : ThumbTimerState) : ThumbTimerState :=
  if !env.connected then { st with timerActive := false }
  else if !env.inView then st
  else
    let base := getTwitchLivePreviewUrl channel 640 360
    if base == "" then st
    else { st with src := base ++ "?t=" ++ toString env.now,
                   refreshCount := st.refreshCount + 1 }

/-- A run of the interval: ticks fire while the interval is scheduled; a
cleared interval fires no further tick. -/
def runThumbTimer (tick : ThumbTickEnv → ThumbTimerState → ThumbTimerState) :
    List ThumbTickEnv → ThumbTimerState → ThumbTimerState
  | [], st => st
  | e :: rest, st =>
    if !st.timerActive then st
    else runThumbTimer tick rest (tick e st)

/-- C9: every auto-refresh timer period is at least 15 seconds (with the 60
second default unchanged); a tick on a connected but off-screen card skips
the refresh work while leaving the schedule untouched (for both the generic
and the Twitch update closures); a tick on a detached card clears the
interval without refreshing; and a cleared timer never acts again — in
particular a detach tick followed by any further schedule leaves only the
cleared flag. -/
theorem thumb_refresh_timer_properties (periodMs : Int) (baseUrl channel : String)
    (env : ThumbTickEnv) (st stC : ThumbTimerState) (trace : List ThumbTickEnv)
    (hview : env.inView = false) (hconn : env.connected = true)
    (hactive : st.timerActive = true) (hcancel : stC.timerActive = false) :
    15000 ≤ thumbRefreshPeriod periodMs ∧
    thumbRefreshPeriod 60000 = 60000 ∧
    startThumbAutoRefreshTick baseUrl env st = st ∧
    startTwitchThumbAutoRefreshTick channel env st = st ∧
    (startThumbAutoRefreshTick baseUrl { env with connected := false } st).timerActive = false ∧
    (startThumbAutoRefreshTick baseUrl { env with connected := false } st).refreshCount =
      st.refreshCount ∧
    runThumbTimer (startThumbAutoRefreshTick baseUrl) trace stC = stC ∧
    runThumbTimer (startThumbAutoRefreshTick baseUrl)
      ({ env with connected := false } :: trace) st = { st with timerActive := false } := by
  have hinact : ∀ (tick : ThumbTickEnv → ThumbTimerState → ThumbTimerState)
      (tr : List ThumbTickEnv) (s : ThumbTimerState),
      s.timerActive = false → runThumbTimer tick tr s = s := by
    intro tick tr s hs
    cases tr with
    | nil => rfl
    | cons e rest => simp [runThumbTimer, hs]
  refine ⟨le_max_left _ _, by decide, ?_, ?_, ?_, ?_, hinact _ trace stC hcancel, ?_⟩
  · simp [startThumbAutoRefreshTick, hview, hconn]
  · simp [startTwitchThumbAutoRefreshTick, hview, hconn]
  · simp [startThumbAutoRefreshTick]
  · simp [startThumbAutoRefreshTick]
  · have h1 : startThumbAutoRefreshTick baseUrl { env with connected := false } st =
        { st with timerActive := false } := by
      simp [startThumbAutoRefreshTick]
    simp only [runThumbTimer, hactive, Bool.not_true, Bool.false_eq_true, if_false, h1]
    exact hinact _ trace _ rfl

/-- A connected, off-screen tick environment. -/
def thumbEnvOffscreen : ThumbTickEnv := { connected := true, inView := false, now := 5 }

/-- A timer state with a scheduled interval. -/
def thumbStActive : ThumbTimerState :=
  { timerActive := true, src := "https://i.ytimg.com/vi/abc/hqdefault_live.jpg", refreshCount := 0 }

/-- A timer state whose interval was cleared. -/
def thumbStCleared : ThumbTimerState :=
  { timerActive := false, src := "https://i.ytimg.com/vi/abc/hqdefault_live.jpg", refreshCount := 3 }

/-- C9, witness: the timer theorem at a concrete off-screen tick — the
refresh is skipped and the state is unchanged. -/
theorem thumb_refresh_timer_properties_witness :
    startThumbAutoRefreshTick "https://i.ytimg.com/vi/abc/hqdefault_live.jpg"
      thumbEnvOffscreen thumbStActive = thumbStActive :=
  (thumb_refresh_timer_properties 60000 "https://i.ytimg.com/vi/abc/hqdefault_live.jpg"
    "xqc" thumbEnvOffscreen thumbStActive thumbStCleared [] (by rfl) (by rfl)
    (by rfl) (by rfl)).2.2.1

/-- A JavaScript runtime error raised during the Kick metadata callback. -/
inductive JsError where
  | referenceError (name : String)
deriving Repr, DecidableEq

/-- Reading a JS identifier: ok when some enclosing scope declares it,
otherwise a ReferenceError is thrown. -/
def lookupJsVar (scope : List String) (name : String) : Except JsError Unit :=
  if scope.contains name then Except.ok () else Except.error (JsError.referenceError name)

/-- The identifiers declared in the scope chain enclosing the body of the
Kick bgFetch callback of tryEmbed in content.js: the callback locals, the
Kick branch locals, the tryEmbed locals and the top-level declarations of
the content-script IIFE. No enclosing scope declares wasLive — the only
wasLive bindings of the file live inside the separate Twitch bigscreen and
Twitch card callbacks, which are sibling closures. -/
def kickCallbackScopeNames : List String :=
  ["res", "title", "image", "doc", "pick", "desc", "liveT", "tn",
   "kChan", "kVid", "card", "thumb", "overlay", "wrap", "scroller",
   "linkInView", "shouldStick", "fetchUrl",
   "a", "container", "url", "host", "sensitivity", "linkText", "pageText",
   "isTweet", "isPicShort", "looksLikeMediaPath", "isWhitelisted", "widthPx",
   "STATE", "MEDIA_EXT", "MEDIA_WHITELIST", "api",
   "isTwitterImageUrl", "isTwitterVideoUrl", "isExtAlive", "safeSendMessage",
   "init", "findScrollableRoot", "setupDggMoreBelowHook", "maybeEmbedInNode",
   "isTweetUrlHost", "tryEmbed", "resolveAndEmbedImgur", "resolveAndEmbedReddit",
   "sanitizeRedditUrl", "resolveAndEmbedInstagram", "canonicalizeInstagramUrl",
   "renderTweetInto", "injectBelow", "computeDesiredWidth", "extractYouTubeId",
   "extractTwitch", "extractKick", "extractKickLiveTitle", "getTwitchLivePreviewUrl",
   "buildDdInstagramUrl", "extractInstagramCaption", "isCspBlockedHost",
   "startTwitchThumbAutoRefresh", "startThumbAutoRefresh", "isYouTubeLive",
   "isHideNsflEnabled", "isHideNsfwEnabled", "getShowRemovedSetting",
   "extractTwitchLiveTitle", "decodeJsonString", "extractDggBigscreenTwitch",
   "cssEscape", "escapeHtml", "isElementInView", "revealAllInTweet",
   "getSensitivityLabel", "applySpoilerIfNeeded", "applySpoilersInRoot",
   "safeAppendEmbed", "maintainStickyAfterAppend", "getScrollContainer",
   "isAtBottom", "scrollToBottom", "getVideoOriginalUrl", "prepareVideoForCsp",
   "ensureCspSafeVideos", "initTweetMediaPager", "retargetLinks", "expandTcoLinksIn"]

/-- The page metadata values the Kick callback picks from the fetched HTML
(empty string for an absent tag or a null live-title extraction). -/
structure KickPageMeta where
  ogImage : String
  twitterImage : String
  ogDescription : String
  twitterDescription : String
  ogTitle : String
  twitterTitle : String
  liveTitle : String
deriving Repr, DecidableEq

/-- The observable result of the Kick metadata callback on its card: the
title text set on the overlay, the thumbnail src (none when the thumb
element was removed), and whether startThumbAutoRefresh was invoked. -/
structure KickCardResult where
  title : String
  thumbSrc : Option String
  autoRefreshStarted : Bool
deriving Repr, DecidableEq

/-- The title and image computation of the Kick callback (content.js lines
before the auto-refresh guard): defaults from the channel or video kind,
then og and twitter meta tags, preferring a detected live title. -/
def kickComputeTitleImage (kChan : Option String) (res : Option BgFetchResponse)
    (meta : KickPageMeta) : String × String :=
  let title0 := match kChan with
    | some c => "Kick • " ++ c
    | none => "Kick Video"
  let hasBody := match res with
    | some r => r.ok && r.body != ""
    | none => false
  if !hasBody then (title0, "")
  else
    let image := if meta.ogImage != "" then meta.ogImage else meta.twitterImage
    let desc := if meta.ogDescription != "" then meta.ogDescription else meta.twitterDescription
    let title :=
      if meta.liveTitle != "" then meta.liveTitle
      else if desc != "" ∧ 3 ≤ desc.length then desc
      else if meta.ogTitle != "" then meta.ogTitle
      else if meta.twitterTitle != "" then meta.twitterTitle
      else title0
    (title, image)

/-- The Kick metadata callback of tryEmbed in content.js: title and
thumbnail are assigned first; the auto-refresh guard then evaluates the
identifier wasLive, which no enclosing scope declares, so a ReferenceError
is thrown and swallowed by the surrounding catch — startThumbAutoRefresh is
never reached, while the earlier assignments survive. The ok branch models
what the guard would do if the identifier resolved. -/
def kickMetadataCallback (kChan : Option String) (res : Option BgFetchResponse)
    (meta : KickPageMeta) : KickCardResult :=
  let ti := kickComputeTitleImage kChan res meta
  let thumbSrc := if ti.2 != "" then some ti.2 else none
  match lookupJsVar kickCallbackScopeNames "wasLive" with
  | Except.error _ =>
    { title := ti.1, thumbSrc := thumbSrc, autoRefreshStarted := false }
  | Except.ok _ =>
    { title := ti.1, thumbSrc := thumbSrc, autoRefreshStarted := ti.2 != "" }

/-- C10: evaluating the auto-refresh guard of the Kick metadata callback
always throws a ReferenceError for the undeclared wasLive, so
startThumbAutoRefresh is never invoked for Kick cards, while the title and
thumbnail assigned earlier in the callback are preserved. -/
theorem kick_wasLive_reference_error (kChan : Option String)
    (res : Option BgFetchResponse) (meta : KickPageMeta) :
    lookupJsVar kickCallbackScopeNames "wasLive" =
      Except.error (JsError.referenceError "wasLive") ∧
    (kickMetadataCallback kChan res meta).autoRefreshStarted = false ∧
    (kickMetadataCallback kChan res meta).title =
      (kickComputeTitleImage kChan res meta).1 ∧
    (kickMetadataCallback kChan res meta).thumbSrc =
      (if (kickComputeTitleImage kChan res meta).2 != "" then
        some (kickComputeTitleImage kChan res meta).2
      else none) := by
  have hlk : lookupJsVar kickCallbackScopeNames "wasLive" =
      Except.error (JsError.referenceError "wasLive") := by rfl
  refine ⟨hlk, ?_, ?_, ?_⟩ <;> simp [kickMetadataCallback, hlk]
